import Mathlib

/-!
Verification development for the entity-schema and update-semantics core of a
chat-platform backend (crates/core/models/src/v0: messages.rs, servers.rs).

The excerpted source defines the entity schema, the partial-overlay types, the
removable-field enumerations and the per-field validation bounds.  The merge
engine, permission composer and query planner are declared and documented there
but their bodies live outside the excerpt; those operations are modelled from
the specification (and from the source's own documentation comments) and are
marked as such in their doc comments.
-/

set_option maxHeartbeats 1000000
set_option synthInstance.maxHeartbeats 400000
set_option maxRecDepth 100000

/-- File attachment reference.  The `File` type is external to the excerpted
models; per the spec only a reference id and opaque metadata are modeled. -/
structure File where
  id : String
deriving DecidableEq, Repr

/-- Webhook descriptor attached to a message; external to the excerpt, modelled
as an atomic value carrying its id. -/
structure MessageWebhook where
  id : String
deriving DecidableEq, Repr

/-- Timestamps are treated as atomic values. -/
abbrev Timestamp := Nat

/-- Representation of a system event message (messages.rs, `SystemMessage`). -/
inductive SystemMessage where
  | Text (content : String)
  | UserAdded (id : String) (by' : String)
  | UserRemove (id : String) (by' : String)
  | UserJoined (id : String)
  | UserLeft (id : String)
  | UserKicked (id : String)
  | UserBanned (id : String)
  | ChannelRenamed (name : String) (by' : String)
  | ChannelDescriptionChanged (by' : String)
  | ChannelIconChanged (by' : String)
  | ChannelOwnershipChanged (from' : String) (to' : String)
deriving DecidableEq, Repr

/-- Rich embed attached to a stored message; the full `Embed` type is external
to the excerpt, so it is embedded as an atomic value. -/
structure Embed where
  payload : String
deriving DecidableEq, Repr

/-- Representation of a text embed before it is sent (messages.rs, `SendableEmbed`). -/
structure SendableEmbed where
  icon_url : Option String
  url : Option String
  title : Option String
  description : Option String
  media : Option String
  colour : Option String
deriving DecidableEq, Repr

/-- Name and / or avatar override information (messages.rs, `Masquerade`). -/
structure Masquerade where
  name : Option String
  avatar : Option String
  colour : Option String
deriving DecidableEq, Repr

/-- Information to guide interactions on a message (messages.rs, `Interactions`).
`reactions` is an insertion-ordered set, embedded as a list. -/
structure Interactions where
  reactions : Option (List String)
  restrict_reactions : Bool
deriving DecidableEq, Repr

/-- Representation of a message reply before it is sent (messages.rs, `Reply`). -/
structure Reply where
  id : String
  mention : Bool
deriving DecidableEq, Repr

/-- Representation of a Message (messages.rs, `Message`).  The reactions map is
an insertion-ordered map from emoji id to an ordered set of user ids, embedded
as an association list. -/
structure Message where
  id : String
  nonce : Option String
  channel : String
  author : String
  webhook : Option MessageWebhook
  content : Option String
  system : Option SystemMessage
  attachments : Option (List File)
  edited : Option Timestamp
  embeds : Option (List Embed)
  mentions : Option (List String)
  replies : Option (List String)
  reactions : List (String × List String)
  interactions : Interactions
  masquerade : Option Masquerade
deriving DecidableEq, Repr

/-- Mirror of `Message` with every field optional (generated in the source by
`auto_derived_partial!` as `PartialMessage`): absence means leave unchanged,
presence means set. -/
structure PartialMessage where
  id : Option String
  nonce : Option String
  channel : Option String
  author : Option String
  webhook : Option MessageWebhook
  content : Option String
  system : Option SystemMessage
  attachments : Option (List File)
  edited : Option Timestamp
  embeds : Option (List Embed)
  mentions : Option (List String)
  replies : Option (List String)
  reactions : Option (List (String × List String))
  interactions : Option Interactions
  masquerade : Option Masquerade
deriving DecidableEq, Repr

/-- Channel category (servers.rs, `Category`). -/
structure Category where
  id : String
  title : String
  channels : List String
deriving DecidableEq, Repr

/-- System message channel assignments (servers.rs, `SystemMessageChannels`). -/
structure SystemMessageChannels where
  user_joined : Option String
  user_left : Option String
  user_kicked : Option String
  user_banned : Option String
deriving DecidableEq, Repr

/-- Optional (removable) fields on the server object (servers.rs, `FieldsServer`). -/
inductive FieldsServer where
  | Description
  | Categories
  | SystemMessages
  | Icon
  | Banner
deriving DecidableEq, Repr, Fintype

/-- Optional (removable) fields on the role object (servers.rs, `FieldsRole`). -/
inductive FieldsRole where
  | Colour
deriving DecidableEq, Repr, Fintype

/-- Removable fields on the message object: the excerpt declares no removable
message field, so the enumeration is empty. -/
inductive FieldsMessage where
deriving Repr

instance : DecidableEq FieldsMessage := fun a => nomatch a

/-- Permission override value: a pair of independent 64-bit allow / deny masks
(declared as `OverrideField` in the source crate root; the spec defines it as a
pair of 64-bit masks). -/
structure OverrideField where
  allow : Nat
  deny : Nat
deriving DecidableEq, Repr

/-- Representation of a server role (servers.rs, `Role`). -/
structure Role where
  name : String
  permissions : OverrideField
  colour : Option String
  hoist : Bool
  rank : Int
deriving DecidableEq, Repr

/-- Mirror of `Role` with every field optional (`PartialRole`). -/
structure PartialRole where
  name : Option String
  permissions : Option OverrideField
  colour : Option String
  hoist : Option Bool
  rank : Option Int
deriving DecidableEq, Repr

/-- Representation of a server (servers.rs, `Server`).  The roles map has
unordered keys, embedded as an association list. -/
structure Server where
  id : String
  owner : String
  name : String
  description : Option String
  channels : List String
  categories : Option (List Category)
  system_messages : Option SystemMessageChannels
  roles : List (String × Role)
  default_permissions : Int
  icon : Option File
  banner : Option File
  flags : Option Int
  nsfw : Bool
  analytics : Bool
  discoverable : Bool
deriving DecidableEq, Repr

/-- Mirror of `Server` with every field optional (`PartialServer`). -/
structure PartialServer where
  id : Option String
  owner : Option String
  name : Option String
  description : Option String
  channels : Option (List String)
  categories : Option (List Category)
  system_messages : Option SystemMessageChannels
  roles : Option (List (String × Role))
  default_permissions : Option Int
  icon : Option File
  banner : Option File
  flags : Option Int
  nsfw : Option Bool
  analytics : Option Bool
  discoverable : Option Bool
deriving DecidableEq, Repr

/-! ## Validation rules

The length bounds below are transcribed from the `#[validate(length(min, max))]`
attributes in the source; a field without such an attribute has no check. -/

/-- A string passes a `length(min, max)` constraint. -/
def lengthBetween (lo hi : Nat) (s : String) : Bool :=
  decide (lo ≤ s.length) && decide (s.length ≤ hi)

/-- An optional string passes a `length(min, max)` constraint: the validator
only checks a value that is present. -/
def optLengthBetween (lo hi : Nat) : Option String → Bool
  | none => true
  | some s => lengthBetween lo hi s

/-- `SendableEmbed` validation, from its attributes: icon_url 1..128,
url 1..256, title 1..100, description 1..2000, colour 1..128; `media` carries
no validation attribute. -/
def SendableEmbed.validate (e : SendableEmbed) : Bool :=
  optLengthBetween 1 128 e.icon_url
    && optLengthBetween 1 256 e.url
    && optLengthBetween 1 100 e.title
    && optLengthBetween 1 2000 e.description
    && optLengthBetween 1 128 e.colour

/-- `Masquerade` validation, from its attributes: name 1..32, avatar 1..256,
colour 1..128. -/
def Masquerade.validate (m : Masquerade) : Bool :=
  optLengthBetween 1 32 m.name
    && optLengthBetween 1 256 m.avatar
    && optLengthBetween 1 128 m.colour

/-- `Category` validation, from its attributes: id 1..32, title 1..32. -/
def Category.validate (c : Category) : Bool :=
  lengthBetween 1 32 c.id && lengthBetween 1 32 c.title

/-- A payload-validation failure, identifying the offending field and the
violated bound (spec section 7). -/
structure ValidationError where
  field : String
  bound : String
deriving DecidableEq, Repr

/-- Data for sending a message (messages.rs, `DataMessageSend`), with its
attributes: nonce 1..64, content 0..2000, nested validation on embeds and
masquerade. -/
structure DataMessageSend where
  nonce : Option String
  content : Option String
  attachments : Option (List String)
  replies : Option (List Reply)
  embeds : Option (List SendableEmbed)
  masquerade : Option Masquerade
  interactions : Option Interactions
deriving DecidableEq, Repr

/-- Modelled from the spec: the validation-rules component checks the
reaction-restriction invariant documented on `Interactions` (messages.rs:
"Can only be set to true if reactions list is of at least length 1"); the
checking code itself is outside the excerpt. -/
def Interactions.validate (i : Interactions) : Bool :=
  !i.restrict_reactions || decide (1 ≤ (i.reactions.getD []).length)

/-- The invariant on `Interactions`: `restrict_reactions` may only be true if
the reaction allow-list has at least one entry. -/
def Interactions.invariant (i : Interactions) : Prop :=
  i.restrict_reactions = true → i.reactions.getD [] ≠ []

/-- Text length carried by the text-bearing fields of an embed (title and
description).  Modelled from the spec: "the Merge/creation path must sum
content length across message body and all text-bearing embed fields"; the
summing code is outside the excerpt (only documented at messages.rs,
"Text embed content contributes to the content length cap"). -/
def embedTextLength (e : SendableEmbed) : Nat :=
  (e.title.map String.length).getD 0 + (e.description.map String.length).getD 0

/-- Combined text length of a send payload: message body plus all text-bearing
embed fields. -/
def totalTextLength (d : DataMessageSend) : Nat :=
  (d.content.map String.length).getD 0 + ((d.embeds.getD []).map embedTextLength).sum

/-- Modelled from the spec: the combined 2000-unit content cap is checked once,
producing a single error when exceeded. -/
def contentCapErrors (d : DataMessageSend) : List ValidationError :=
  if 2000 < totalTextLength d then [⟨"content", "combined length above 2000"⟩] else []

/-- Modelled from the spec: full validation of a send payload, collecting the
per-field errors from the source's validation attributes, the interaction
invariant, and the single combined content-cap error. -/
def validateDataMessageSend (d : DataMessageSend) : List ValidationError :=
  (cond (optLengthBetween 1 64 d.nonce) [] [⟨"nonce", "length 1..64"⟩])
    ++ (cond (optLengthBetween 0 2000 d.content) [] [⟨"content", "length 0..2000"⟩])
    ++ (cond ((d.embeds.getD []).all SendableEmbed.validate) [] [⟨"embeds", "nested"⟩])
    ++ (cond ((d.masquerade.map Masquerade.validate).getD true) [] [⟨"masquerade", "nested"⟩])
    ++ (cond ((d.interactions.map Interactions.validate).getD true) [] [⟨"interactions", "restrict_reactions needs a nonempty list"⟩])
    ++ contentCapErrors d

/-! ## Merge engine

Modelled from the spec (section 4.2): the merge generated in the source by
`auto_derived_partial!` with `#[opt_some_priority]` is not in the excerpt.  A
field present in the update is set (even to an empty-but-present value), an
absent field leaves the current value unchanged, and every field named in the
removal set ends in its empty/default state regardless of the update. -/

/-- Apply the set-part of a partial message: present fields win. -/
def Message.applyOptions (m : Message) (p : PartialMessage) : Message where
  id := p.id.getD m.id
  nonce := p.nonce.or m.nonce
  channel := p.channel.getD m.channel
  author := p.author.getD m.author
  webhook := p.webhook.or m.webhook
  content := p.content.or m.content
  system := p.system.or m.system
  attachments := p.attachments.or m.attachments
  edited := p.edited.or m.edited
  embeds := p.embeds.or m.embeds
  mentions := p.mentions.or m.mentions
  replies := p.replies.or m.replies
  reactions := p.reactions.getD m.reactions
  interactions := p.interactions.getD m.interactions
  masquerade := p.masquerade.or m.masquerade

/-- Clear one removable message field; the enumeration is empty, so there is
nothing to clear. -/
def Message.removeField (m : Message) (f : FieldsMessage) : Message :=
  nomatch f

/-- Merge engine for messages: apply the set-part, then clear every field in
the removal set (removal takes precedence over set). -/
def Message.apply (m : Message) (p : PartialMessage) (r : List FieldsMessage) : Message :=
  r.foldl Message.removeField (m.applyOptions p)

/-- Apply the set-part of a partial server: present fields win. -/
def Server.applyOptions (s : Server) (p : PartialServer) : Server where
  id := p.id.getD s.id
  owner := p.owner.getD s.owner
  name := p.name.getD s.name
  description := p.description.or s.description
  channels := p.channels.getD s.channels
  categories := p.categories.or s.categories
  system_messages := p.system_messages.or s.system_messages
  roles := p.roles.getD s.roles
  default_permissions := p.default_permissions.getD s.default_permissions
  icon := p.icon.or s.icon
  banner := p.banner.or s.banner
  flags := p.flags.or s.flags
  nsfw := p.nsfw.getD s.nsfw
  analytics := p.analytics.getD s.analytics
  discoverable := p.discoverable.getD s.discoverable

/-- Clear one removable server field to its empty/default state. -/
def Server.removeField (s : Server) : FieldsServer → Server
  | FieldsServer.Description => { s with description := none }
  | FieldsServer.Categories => { s with categories := none }
  | FieldsServer.SystemMessages => { s with system_messages := none }
  | FieldsServer.Icon => { s with icon := none }
  | FieldsServer.Banner => { s with banner := none }

/-- Merge engine for servers: apply the set-part, then clear every field in the
removal set (removal takes precedence over set). -/
def Server.apply (s : Server) (p : PartialServer) (r : List FieldsServer) : Server :=
  r.foldl Server.removeField (s.applyOptions p)

/-- Apply the set-part of a partial role: present fields win. -/
def Role.applyOptions (ro : Role) (p : PartialRole) : Role where
  name := p.name.getD ro.name
  permissions := p.permissions.getD ro.permissions
  colour := p.colour.or ro.colour
  hoist := p.hoist.getD ro.hoist
  rank := p.rank.getD ro.rank

/-- Clear one removable role field to its empty/default state. -/
def Role.removeField (ro : Role) : FieldsRole → Role
  | FieldsRole.Colour => { ro with colour := none }

/-- Merge engine for roles: apply the set-part, then clear every field in the
removal set (removal takes precedence over set). -/
def Role.apply (ro : Role) (p : PartialRole) (r : List FieldsRole) : Role :=
  r.foldl Role.removeField (ro.applyOptions p)

/-- The field of a server is in its empty/default state. -/
def Server.fieldCleared (s : Server) : FieldsServer → Prop
  | FieldsServer.Description => s.description = none
  | FieldsServer.Categories => s.categories = none
  | FieldsServer.SystemMessages => s.system_messages = none
  | FieldsServer.Icon => s.icon = none
  | FieldsServer.Banner => s.banner = none

/-- The field of a role is in its empty/default state. -/
def Role.fieldCleared (ro : Role) : FieldsRole → Prop
  | FieldsRole.Colour => ro.colour = none

/-- The field of a message is in its empty/default state (vacuous: no message
field is removable). -/
def Message.fieldCleared (_ : Message) (f : FieldsMessage) : Prop :=
  nomatch f

/-- The partial carries a value for the given removable server field. -/
def PartialServer.setsField (p : PartialServer) : FieldsServer → Prop
  | FieldsServer.Description => p.description.isSome = true
  | FieldsServer.Categories => p.categories.isSome = true
  | FieldsServer.SystemMessages => p.system_messages.isSome = true
  | FieldsServer.Icon => p.icon.isSome = true
  | FieldsServer.Banner => p.banner.isSome = true

/-- The partial carries a value for the given removable role field. -/
def PartialRole.setsField (p : PartialRole) : FieldsRole → Prop
  | FieldsRole.Colour => p.colour.isSome = true

instance (p : PartialServer) (f : FieldsServer) : Decidable (p.setsField f) := by
  cases f <;> exact inferInstanceAs (Decidable (_ = true))

instance (p : PartialRole) (f : FieldsRole) : Decidable (p.setsField f) := by
  cases f <;> exact inferInstanceAs (Decidable (_ = true))

/-! ## Permission composer

Modelled from the spec (section 4.3): the composition algorithm is not in the
excerpt (the spec itself notes its ordering is inferred, section 9); the fold,
the rank ordering and the channel-layer priority follow the spec's words. -/

/-- Bitwise complement within 64 bits. -/
def not64 (x : Nat) : Nat := x ^^^ (2 ^ 64 - 1)

/-- One composition step: clear the denied bits, then set the allowed bits. -/
def composeStep (eff : Nat) (l : OverrideField) : Nat :=
  (eff &&& not64 l.deny) ||| l.allow

/-- Fold the override layers left to right, lowest priority first, starting
from the base permission value. -/
def compose (base : Nat) (layers : List OverrideField) : Nat :=
  layers.foldl composeStep base

/-- Order role layers for composition: ascending numeric rank, then reversed,
so that the smallest-rank (most senior) role is applied last. -/
def sortRoleLayers (roles : List (Int × OverrideField)) : List (Int × OverrideField) :=
  (List.insertionSort (fun a b => a.1 ≤ b.1) roles).reverse

/-- Compose an effective permission from the base value, rank-tagged role
layers, and an optional channel-specific override applied last of all. -/
def composeWithLayers (base : Nat) (roles : List (Int × OverrideField))
    (channel : Option OverrideField) : Nat :=
  let eff := compose base ((sortRoleLayers roles).map Prod.snd)
  match channel with
  | some c => composeStep eff c
  | none => eff

/-! ## Message query planner

The planner's code is outside the excerpt; its behaviour for the `nearby`
variant is documented in the source (messages.rs, `MessageTimePeriod.Relative`:
"Specifying 'nearby' ignores 'before', 'after' and 'sort'.  It will also take
half of limit rounded as the limits to each side.  It also fetches the message
ID specified."; `MessageQuery.limit`: "For fetching nearby messages, this is
(limit + 1)").  The definitions below follow that documentation. -/

/-- Sort used for retrieving messages (messages.rs, `MessageSort`). -/
inductive MessageSort where
  | Relevance
  | Latest
  | Oldest
deriving DecidableEq, Repr

/-- Filter and sort messages by time (messages.rs, `MessageTimePeriod`).  The
Rust enum is untagged: a request is either relative (`nearby`) or absolute
(`before` / `after` / `sort`). -/
inductive MessageTimePeriod where
  | Relative (nearby : String)
  | Absolute (before : Option String) (after : Option String) (sort : Option MessageSort)
deriving DecidableEq, Repr

/-- A raw time-period payload as supplied on the wire, before the untagged
deserialization chooses a variant. -/
structure RawTimePeriod where
  nearby : Option String
  before : Option String
  after : Option String
  sort : Option MessageSort
deriving DecidableEq, Repr

/-- Untagged deserialization tries the `Relative` variant first: a payload
carrying `nearby` becomes relative and its `before` / `after` / `sort` are
dropped without error. -/
def parseTimePeriod (r : RawTimePeriod) : MessageTimePeriod :=
  match r.nearby with
  | some n => MessageTimePeriod.Relative n
  | none => MessageTimePeriod.Absolute r.before r.after r.sort

/-- Per-side fetch limit for a nearby query: half of the requested limit,
rounded down. -/
def nearbySideLimit (limit : Nat) : Nat := limit / 2

/-- Total number of messages a nearby fetch retrieves: half of the limit to
each side, plus the nearby message itself. -/
def nearbyPlannedTotal (limit : Nat) : Nat :=
  nearbySideLimit limit + nearbySideLimit limit + 1

/-- A normalized fetch window ready for the store. -/
inductive FetchWindow where
  | Nearby (id : String) (beforeCount : Nat) (afterCount : Nat) (includeSelf : Bool)
  | Range (before : Option String) (after : Option String) (sort : Option MessageSort)
deriving DecidableEq, Repr

/-- Plan the fetch window for a time period and a requested limit. -/
def planWindow (limit : Nat) : MessageTimePeriod → FetchWindow
  | MessageTimePeriod.Relative n =>
      FetchWindow.Nearby n (nearbySideLimit limit) (nearbySideLimit limit) true
  | MessageTimePeriod.Absolute b a s => FetchWindow.Range b a s

/-- Message creation: validation runs first and creation is not attempted when
it fails (modelled from the spec, section 4.2: merge never partially applies). -/
def sendMessage (id channel author : String) (d : DataMessageSend) :
    Except (List ValidationError) Message :=
  match validateDataMessageSend d with
  | [] => Except.ok
      { id := id
        nonce := d.nonce
        channel := channel
        author := author
        webhook := none
        content := d.content
        system := none
        attachments := some ((d.attachments.getD []).map File.mk)
        edited := none
        embeds := none
        mentions := none
        replies := some ((d.replies.getD []).map Reply.id)
        reactions := []
        interactions := d.interactions.getD ⟨none, false⟩
        masquerade := d.masquerade }
  | es => Except.error es

/-! ## Concrete sample values used to instantiate the theorems -/

/-- A sample server. -/
def sampleServer : Server where
  id := "01SRV"
  owner := "01OWN"
  name := "testers"
  description := some "a test server"
  channels := ["01CHA", "01CHB"]
  categories := some [⟨"01CAT", "general", ["01CHA"]⟩]
  system_messages := some ⟨some "01CHA", none, none, none⟩
  roles := [("01ROL", ⟨"mod", ⟨1, 2⟩, some "red", false, 3⟩)]
  default_permissions := 100
  icon := some ⟨"01ICN"⟩
  banner := some ⟨"01BNR"⟩
  flags := some 1
  nsfw := false
  analytics := false
  discoverable := true

/-- A sample partial server that renames the server and clears nothing. -/
def samplePartialServer : PartialServer where
  id := none
  owner := none
  name := some "renamed"
  description := none
  channels := some []
  categories := none
  system_messages := none
  roles := none
  default_permissions := none
  icon := none
  banner := none
  flags := none
  nsfw := none
  analytics := none
  discoverable := none

/-- A sample role. -/
def sampleRole : Role where
  name := "mod"
  permissions := ⟨4, 8⟩
  colour := some "blue"
  hoist := false
  rank := 2

/-- A sample partial role setting the colour. -/
def samplePartialRole : PartialRole where
  name := none
  permissions := none
  colour := some "green"
  hoist := none
  rank := none

/-- A sample stored message whose interactions satisfy the invariant. -/
def sampleMessage : Message where
  id := "01MSG"
  nonce := none
  channel := "01CHA"
  author := "01USR"
  webhook := none
  content := some "hello"
  system := none
  attachments := none
  edited := none
  embeds := none
  mentions := none
  replies := none
  reactions := []
  interactions := ⟨none, false⟩
  masquerade := none

/-- A sample partial message that edits the content and sets a validated
interactions value. -/
def samplePartialMessage : PartialMessage where
  id := none
  nonce := none
  channel := none
  author := none
  webhook := none
  content := some "edited"
  system := none
  attachments := none
  edited := some 5
  embeds := none
  mentions := none
  replies := none
  reactions := none
  interactions := some ⟨some ["star"], true⟩
  masquerade := none

/-- A 1200-unit string, used to exceed the combined content cap. -/
def longText : String := String.mk (List.replicate 1200 'a')

/-- A send payload whose fields each pass their own bound while the combined
text length (2400) exceeds the 2000-unit cap. -/
def sampleOverCapSend : DataMessageSend where
  nonce := none
  content := some longText
  attachments := none
  replies := none
  embeds := some [⟨none, none, none, some longText, none, none⟩]
  masquerade := none
  interactions := none

/-- A send payload with an empty (present) nonce. -/
def sampleEmptyNonceSend : DataMessageSend where
  nonce := some ""
  content := some "hi"
  attachments := none
  replies := none
  embeds := none
  masquerade := none
  interactions := none

/-- Spec-side characterization of a length bound on an optional string: a
present value lies within the bounds, an absent one passes trivially. -/
def inOptBounds (lo hi : Nat) : Option String → Prop
  | none => True
  | some s => lo ≤ s.length ∧ s.length ≤ hi

/-! ## Helper lemmas -/

theorem opt_or_idem {α : Type} (o b : Option α) : o.or (o.or b) = o.or b := by
  cases o <;> rfl

theorem opt_getD_idem {α : Type} (o : Option α) (a : α) : o.getD (o.getD a) = o.getD a := by
  cases o <;> rfl

theorem fieldsMessage_nil (r : List FieldsMessage) : r = [] := by
  cases r with
  | nil => rfl
  | cons a _ => exact nomatch a

theorem Server.foldRemove_stable (r : List FieldsServer) (s : Server) :
    (r.foldl Server.removeField s).id = s.id
  ∧ (r.foldl Server.removeField s).owner = s.owner
  ∧ (r.foldl Server.removeField s).name = s.name
  ∧ (r.foldl Server.removeField s).channels = s.channels
  ∧ (r.foldl Server.removeField s).roles = s.roles
  ∧ (r.foldl Server.removeField s).default_permissions = s.default_permissions
  ∧ (r.foldl Server.removeField s).flags = s.flags
  ∧ (r.foldl Server.removeField s).nsfw = s.nsfw
  ∧ (r.foldl Server.removeField s).analytics = s.analytics
  ∧ (r.foldl Server.removeField s).discoverable = s.discoverable := by
  induction r generalizing s with
  | nil => exact ⟨rfl, rfl, rfl, rfl, rfl, rfl, rfl, rfl, rfl, rfl⟩
  | cons a t ih =>
    simp only [List.foldl_cons]
    cases a <;> simpa [Server.removeField] using ih _

theorem Server.foldRemove_description (r : List FieldsServer) (s : Server)
    (h : FieldsServer.Description ∉ r) :
    (r.foldl Server.removeField s).description = s.description := by
  induction r generalizing s with
  | nil => rfl
  | cons a t ih =>
    simp only [List.mem_cons, not_or] at h
    rw [List.foldl_cons, ih _ h.2]
    cases a <;> first | exact absurd rfl h.1 | rfl

theorem Server.foldRemove_categories (r : List FieldsServer) (s : Server)
    (h : FieldsServer.Categories ∉ r) :
    (r.foldl Server.removeField s).categories = s.categories := by
  induction r generalizing s with
  | nil => rfl
  | cons a t ih =>
    simp only [List.mem_cons, not_or] at h
    rw [List.foldl_cons, ih _ h.2]
    cases a <;> first | exact absurd rfl h.1 | rfl

theorem Server.foldRemove_system_messages (r : List FieldsServer) (s : Server)
    (h : FieldsServer.SystemMessages ∉ r) :
    (r.foldl Server.removeField s).system_messages = s.system_messages := by
  induction r generalizing s with
  | nil => rfl
  | cons a t ih =>
    simp only [List.mem_cons, not_or] at h
    rw [List.foldl_cons, ih _ h.2]
    cases a <;> first | exact absurd rfl h.1 | rfl

theorem Server.foldRemove_icon (r : List FieldsServer) (s : Server)
    (h : FieldsServer.Icon ∉ r) :
    (r.foldl Server.removeField s).icon = s.icon := by
  induction r generalizing s with
  | nil => rfl
  | cons a t ih =>
    simp only [List.mem_cons, not_or] at h
    rw [List.foldl_cons, ih _ h.2]
    cases a <;> first | exact absurd rfl h.1 | rfl

theorem Server.foldRemove_banner (r : List FieldsServer) (s : Server)
    (h : FieldsServer.Banner ∉ r) :
    (r.foldl Server.removeField s).banner = s.banner := by
  induction r generalizing s with
  | nil => rfl
  | cons a t ih =>
    simp only [List.mem_cons, not_or] at h
    rw [List.foldl_cons, ih _ h.2]
    cases a <;> first | exact absurd rfl h.1 | rfl

theorem Server.removeField_clears (s : Server) (f : FieldsServer) :
    Server.fieldCleared (Server.removeField s f) f := by
  cases f <;> rfl

theorem Server.removeField_keeps_cleared (s : Server) (f g : FieldsServer)
    (h : Server.fieldCleared s f) : Server.fieldCleared (Server.removeField s g) f := by
  cases f <;> cases g <;> simpa [Server.fieldCleared, Server.removeField] using h

theorem Server.foldRemove_keeps_cleared (r : List FieldsServer) (s : Server) (f : FieldsServer)
    (h : Server.fieldCleared s f) : Server.fieldCleared (r.foldl Server.removeField s) f := by
  induction r generalizing s with
  | nil => exact h
  | cons a t ih =>
    rw [List.foldl_cons]
    exact ih _ (Server.removeField_keeps_cleared s f a h)

theorem Server.foldRemove_clears (r : List FieldsServer) (s : Server) (f : FieldsServer)
    (h : f ∈ r) : Server.fieldCleared (r.foldl Server.removeField s) f := by
  induction r generalizing s with
  | nil => cases h
  | cons a t ih =>
    rw [List.foldl_cons]
    rcases List.mem_cons.mp h with rfl | hm
    · exact Server.foldRemove_keeps_cleared t _ f (Server.removeField_clears s f)
    · exact ih _ hm

theorem Role.foldRemove_stable_role (r : List FieldsRole) (ro : Role) :
    (r.foldl Role.removeField ro).name = ro.name
  ∧ (r.foldl Role.removeField ro).permissions = ro.permissions
  ∧ (r.foldl Role.removeField ro).hoist = ro.hoist
  ∧ (r.foldl Role.removeField ro).rank = ro.rank := by
  induction r generalizing ro with
  | nil => exact ⟨rfl, rfl, rfl, rfl⟩
  | cons a t ih =>
    simp only [List.foldl_cons]
    cases a <;> simpa [Role.removeField] using ih _

theorem Role.foldRemove_colour (r : List FieldsRole) (ro : Role)
    (h : FieldsRole.Colour ∉ r) :
    (r.foldl Role.removeField ro).colour = ro.colour := by
  induction r generalizing ro with
  | nil => rfl
  | cons a t ih =>
    cases a
    exact absurd (List.mem_cons_self _ _) h

theorem Role.removeField_clears_role (ro : Role) (f : FieldsRole) :
    Role.fieldCleared (Role.removeField ro f) f := by
  cases f <;> rfl

theorem Role.foldRemove_keeps_cleared_role (r : List FieldsRole) (ro : Role) (f : FieldsRole)
    (h : Role.fieldCleared ro f) : Role.fieldCleared (r.foldl Role.removeField ro) f := by
  induction r generalizing ro with
  | nil => exact h
  | cons a t ih =>
    rw [List.foldl_cons]
    refine ih _ ?_
    cases f
    cases a
    rfl

theorem Role.foldRemove_clears_role (r : List FieldsRole) (ro : Role) (f : FieldsRole)
    (h : f ∈ r) : Role.fieldCleared (r.foldl Role.removeField ro) f := by
  induction r generalizing ro with
  | nil => cases h
  | cons a t ih =>
    rw [List.foldl_cons]
    rcases List.mem_cons.mp h with rfl | hm
    · exact Role.foldRemove_keeps_cleared_role t _ f (Role.removeField_clears_role ro f)
    · exact ih _ hm

theorem Interactions.validate_iff (i : Interactions) :
    Interactions.validate i = true ↔ Interactions.invariant i := by
  obtain ⟨rs, rr⟩ := i
  cases rr <;> cases rs <;>
    simp [Interactions.validate, Interactions.invariant, Nat.one_le_iff_ne_zero,
      List.length_eq_zero]

theorem lengthBetween_iff (lo hi : Nat) (s : String) :
    lengthBetween lo hi s = true ↔ (lo ≤ s.length ∧ s.length ≤ hi) := by
  simp [lengthBetween]

theorem optLengthBetween_iff (lo hi : Nat) (o : Option String) :
    optLengthBetween lo hi o = true ↔ inOptBounds lo hi o := by
  cases o <;> simp [optLengthBetween, lengthBetween, inOptBounds]

theorem Server.apply_fields (s : Server) (p : PartialServer) (r : List FieldsServer) :
    (Server.apply s p r).id = p.id.getD s.id
  ∧ (Server.apply s p r).owner = p.owner.getD s.owner
  ∧ (Server.apply s p r).name = p.name.getD s.name
  ∧ (Server.apply s p r).channels = p.channels.getD s.channels
  ∧ (Server.apply s p r).roles = p.roles.getD s.roles
  ∧ (Server.apply s p r).default_permissions = p.default_permissions.getD s.default_permissions
  ∧ (Server.apply s p r).flags = p.flags.or s.flags
  ∧ (Server.apply s p r).nsfw = p.nsfw.getD s.nsfw
  ∧ (Server.apply s p r).analytics = p.analytics.getD s.analytics
  ∧ (Server.apply s p r).discoverable = p.discoverable.getD s.discoverable
  ∧ (FieldsServer.Description ∉ r →
      (Server.apply s p r).description = p.description.or s.description)
  ∧ (FieldsServer.Categories ∉ r →
      (Server.apply s p r).categories = p.categories.or s.categories)
  ∧ (FieldsServer.SystemMessages ∉ r →
      (Server.apply s p r).system_messages = p.system_messages.or s.system_messages)
  ∧ (FieldsServer.Icon ∉ r → (Server.apply s p r).icon = p.icon.or s.icon)
  ∧ (FieldsServer.Banner ∉ r → (Server.apply s p r).banner = p.banner.or s.banner) := by
  obtain ⟨h1, h2, h3, h4, h5, h6, h7, h8, h9, h10⟩ :=
    Server.foldRemove_stable r (s.applyOptions p)
  exact ⟨h1, h2, h3, h4, h5, h6, h7, h8, h9, h10,
    fun hn => Server.foldRemove_description r _ hn,
    fun hn => Server.foldRemove_categories r _ hn,
    fun hn => Server.foldRemove_system_messages r _ hn,
    fun hn => Server.foldRemove_icon r _ hn,
    fun hn => Server.foldRemove_banner r _ hn⟩

theorem Role.apply_fields_role (ro : Role) (p : PartialRole) (r : List FieldsRole) :
    (Role.apply ro p r).name = p.name.getD ro.name
  ∧ (Role.apply ro p r).permissions = p.permissions.getD ro.permissions
  ∧ (Role.apply ro p r).hoist = p.hoist.getD ro.hoist
  ∧ (Role.apply ro p r).rank = p.rank.getD ro.rank
  ∧ (FieldsRole.Colour ∉ r → (Role.apply ro p r).colour = p.colour.or ro.colour) := by
  obtain ⟨h1, h2, h3, h4⟩ := Role.foldRemove_stable_role r (ro.applyOptions p)
  exact ⟨h1, h2, h3, h4, fun hn => Role.foldRemove_colour r _ hn⟩

theorem Message.apply_eq_applyOptions (m : Message) (p : PartialMessage)
    (r : List FieldsMessage) : Message.apply m p r = m.applyOptions p := by
  obtain rfl := fieldsMessage_nil r
  rfl

/-! ## Claims -/

/-- C1: For every entity (Message, Server, Role), every partial update and
every removal set, each canonical field listed in the removal set ends in its
empty/default state in the merged result regardless of whether the update also
sets it; a request that both sets and removes a field is not an error and
resolves deterministically to removed. -/
theorem claim_removal_wins :
    (∀ (s : Server) (p : PartialServer) (r : List FieldsServer) (f : FieldsServer),
      f ∈ r → Server.fieldCleared (Server.apply s p r) f)
  ∧ (∀ (ro : Role) (p : PartialRole) (r : List FieldsRole) (f : FieldsRole),
      f ∈ r → Role.fieldCleared (Role.apply ro p r) f)
  ∧ (∀ (m : Message) (p : PartialMessage) (r : List FieldsMessage) (f : FieldsMessage),
      f ∈ r → Message.fieldCleared (Message.apply m p r) f) := by
  refine ⟨?_, ?_, ?_⟩
  · intro s p r f hf
    exact Server.foldRemove_clears r _ f hf
  · intro ro p r f hf
    exact Role.foldRemove_clears_role r _ f hf
  · intro m p r f hf
    exact nomatch f

/-- C1 witness: a server whose update both sets and removes the description
still ends with the description cleared, and likewise for a role colour. -/
theorem claim_removal_wins_witness :
    Server.fieldCleared
      (Server.apply sampleServer
        { samplePartialServer with description := some "set and removed" }
        [FieldsServer.Description])
      FieldsServer.Description
  ∧ Role.fieldCleared
      (Role.apply sampleRole samplePartialRole [FieldsRole.Colour])
      FieldsRole.Colour :=
  ⟨claim_removal_wins.1 sampleServer _ _ FieldsServer.Description
      (List.mem_singleton.mpr rfl),
   claim_removal_wins.2.1 sampleRole samplePartialRole _ FieldsRole.Colour
      (List.mem_singleton.mpr rfl)⟩

/-- C2: Frame effect of the merge: when the set of fields carried by the
partial and the removal set are disjoint, every canonical field neither
carried by the partial nor named in the removal set is exactly the current
entity's value, and a field carried by the partial takes the partial's value
even when that value is empty-but-present. -/
theorem claim_frame_effect :
    (∀ (s : Server) (p : PartialServer) (r : List FieldsServer),
      (∀ f, p.setsField f → f ∉ r) →
      ((p.id = none → (Server.apply s p r).id = s.id)
          ∧ ∀ v, p.id = some v → (Server.apply s p r).id = v)
      ∧ ((p.owner = none → (Server.apply s p r).owner = s.owner)
          ∧ ∀ v, p.owner = some v → (Server.apply s p r).owner = v)
      ∧ ((p.name = none → (Server.apply s p r).name = s.name)
          ∧ ∀ v, p.name = some v → (Server.apply s p r).name = v)
      ∧ ((p.channels = none → (Server.apply s p r).channels = s.channels)
          ∧ ∀ v, p.channels = some v → (Server.apply s p r).channels = v)
      ∧ ((p.roles = none → (Server.apply s p r).roles = s.roles)
          ∧ ∀ v, p.roles = some v → (Server.apply s p r).roles = v)
      ∧ ((p.default_permissions = none →
            (Server.apply s p r).default_permissions = s.default_permissions)
          ∧ ∀ v, p.default_permissions = some v →
            (Server.apply s p r).default_permissions = v)
      ∧ ((p.flags = none → (Server.apply s p r).flags = s.flags)
          ∧ ∀ v, p.flags = some v → (Server.apply s p r).flags = some v)
      ∧ ((p.nsfw = none → (Server.apply s p r).nsfw = s.nsfw)
          ∧ ∀ v, p.nsfw = some v → (Server.apply s p r).nsfw = v)
      ∧ ((p.analytics = none → (Server.apply s p r).analytics = s.analytics)
          ∧ ∀ v, p.analytics = some v → (Server.apply s p r).analytics = v)
      ∧ ((p.discoverable = none → (Server.apply s p r).discoverable = s.discoverable)
          ∧ ∀ v, p.discoverable = some v → (Server.apply s p r).discoverable = v)
      ∧ ((p.description = none → FieldsServer.Description ∉ r →
            (Server.apply s p r).description = s.description)
          ∧ ∀ v, p.description = some v → (Server.apply s p r).description = some v)
      ∧ ((p.categories = none → FieldsServer.Categories ∉ r →
            (Server.apply s p r).categories = s.categories)
          ∧ ∀ v, p.categories = some v → (Server.apply s p r).categories = some v)
      ∧ ((p.system_messages = none → FieldsServer.SystemMessages ∉ r →
            (Server.apply s p r).system_messages = s.system_messages)
          ∧ ∀ v, p.system_messages = some v →
            (Server.apply s p r).system_messages = some v)
      ∧ ((p.icon = none → FieldsServer.Icon ∉ r → (Server.apply s p r).icon = s.icon)
          ∧ ∀ v, p.icon = some v → (Server.apply s p r).icon = some v)
      ∧ ((p.banner = none → FieldsServer.Banner ∉ r →
            (Server.apply s p r).banner = s.banner)
          ∧ ∀ v, p.banner = some v → (Server.apply s p r).banner = some v))
  ∧ (∀ (ro : Role) (p : PartialRole) (r : List FieldsRole),
      (∀ f, p.setsField f → f ∉ r) →
      ((p.name = none → (Role.apply ro p r).name = ro.name)
          ∧ ∀ v, p.name = some v → (Role.apply ro p r).name = v)
      ∧ ((p.permissions = none → (Role.apply ro p r).permissions = ro.permissions)
          ∧ ∀ v, p.permissions = some v → (Role.apply ro p r).permissions = v)
      ∧ ((p.hoist = none → (Role.apply ro p r).hoist = ro.hoist)
          ∧ ∀ v, p.hoist = some v → (Role.apply ro p r).hoist = v)
      ∧ ((p.rank = none → (Role.apply ro p r).rank = ro.rank)
          ∧ ∀ v, p.rank = some v → (Role.apply ro p r).rank = v)
      ∧ ((p.colour = none → FieldsRole.Colour ∉ r →
            (Role.apply ro p r).colour = ro.colour)
          ∧ ∀ v, p.colour = some v → (Role.apply ro p r).colour = some v))
  ∧ (∀ (m : Message) (p : PartialMessage) (r : List FieldsMessage),
      ((p.id = none → (Message.apply m p r).id = m.id)
          ∧ ∀ v, p.id = some v → (Message.apply m p r).id = v)
      ∧ ((p.nonce = none → (Message.apply m p r).nonce = m.nonce)
          ∧ ∀ v, p.nonce = some v → (Message.apply m p r).nonce = some v)
      ∧ ((p.channel = none → (Message.apply m p r).channel = m.channel)
          ∧ ∀ v, p.channel = some v → (Message.apply m p r).channel = v)
      ∧ ((p.author = none → (Message.apply m p r).author = m.author)
          ∧ ∀ v, p.author = some v → (Message.apply m p r).author = v)
      ∧ ((p.webhook = none → (Message.apply m p r).webhook = m.webhook)
          ∧ ∀ v, p.webhook = some v → (Message.apply m p r).webhook = some v)
      ∧ ((p.content = none → (Message.apply m p r).content = m.content)
          ∧ ∀ v, p.content = some v → (Message.apply m p r).content = some v)
      ∧ ((p.system = none → (Message.apply m p r).system = m.system)
          ∧ ∀ v, p.system = some v → (Message.apply m p r).system = some v)
      ∧ ((p.attachments = none → (Message.apply m p r).attachments = m.attachments)
          ∧ ∀ v, p.attachments = some v → (Message.apply m p r).attachments = some v)
      ∧ ((p.edited = none → (Message.apply m p r).edited = m.edited)
          ∧ ∀ v, p.edited = some v → (Message.apply m p r).edited = some v)
      ∧ ((p.embeds = none → (Message.apply m p r).embeds = m.embeds)
          ∧ ∀ v, p.embeds = some v → (Message.apply m p r).embeds = some v)
      ∧ ((p.mentions = none → (Message.apply m p r).mentions = m.mentions)
          ∧ ∀ v, p.mentions = some v → (Message.apply m p r).mentions = some v)
      ∧ ((p.replies = none → (Message.apply m p r).replies = m.replies)
          ∧ ∀ v, p.replies = some v → (Message.apply m p r).replies = some v)
      ∧ ((p.reactions = none → (Message.apply m p r).reactions = m.reactions)
          ∧ ∀ v, p.reactions = some v → (Message.apply m p r).reactions = v)
      ∧ ((p.interactions = none → (Message.apply m p r).interactions = m.interactions)
          ∧ ∀ v, p.interactions = some v → (Message.apply m p r).interactions = v)
      ∧ ((p.masquerade = none → (Message.apply m p r).masquerade = m.masquerade)
          ∧ ∀ v, p.masquerade = some v → (Message.apply m p r).masquerade = some v)) := by
  refine ⟨fun s p r h => ?_, fun ro p r h => ?_, fun m p r => ?_⟩
  · obtain ⟨f1, f2, f3, f4, f5, f6, f7, f8, f9, f10, g1, g2, g3, g4, g5⟩ :=
      Server.apply_fields s p r
    exact ⟨⟨fun hp => by rw [f1, hp]; rfl, fun v hp => by rw [f1, hp]; rfl⟩,
      ⟨fun hp => by rw [f2, hp]; rfl, fun v hp => by rw [f2, hp]; rfl⟩,
      ⟨fun hp => by rw [f3, hp]; rfl, fun v hp => by rw [f3, hp]; rfl⟩,
      ⟨fun hp => by rw [f4, hp]; rfl, fun v hp => by rw [f4, hp]; rfl⟩,
      ⟨fun hp => by rw [f5, hp]; rfl, fun v hp => by rw [f5, hp]; rfl⟩,
      ⟨fun hp => by rw [f6, hp]; rfl, fun v hp => by rw [f6, hp]; rfl⟩,
      ⟨fun hp => by rw [f7, hp]; rfl, fun v hp => by rw [f7, hp]; rfl⟩,
      ⟨fun hp => by rw [f8, hp]; rfl, fun v hp => by rw [f8, hp]; rfl⟩,
      ⟨fun hp => by rw [f9, hp]; rfl, fun v hp => by rw [f9, hp]; rfl⟩,
      ⟨fun hp => by rw [f10, hp]; rfl, fun v hp => by rw [f10, hp]; rfl⟩,
      ⟨fun hp hn => by rw [g1 hn, hp]; rfl,
       fun v hp => by
        rw [g1 (h FieldsServer.Description (by simp [PartialServer.setsField, hp])), hp]; rfl⟩,
      ⟨fun hp hn => by rw [g2 hn, hp]; rfl,
       fun v hp => by
        rw [g2 (h FieldsServer.Categories (by simp [PartialServer.setsField, hp])), hp]; rfl⟩,
      ⟨fun hp hn => by rw [g3 hn, hp]; rfl,
       fun v hp => by
        rw [g3 (h FieldsServer.SystemMessages (by simp [PartialServer.setsField, hp])), hp]; rfl⟩,
      ⟨fun hp hn => by rw [g4 hn, hp]; rfl,
       fun v hp => by
        rw [g4 (h FieldsServer.Icon (by simp [PartialServer.setsField, hp])), hp]; rfl⟩,
      ⟨fun hp hn => by rw [g5 hn, hp]; rfl,
       fun v hp => by
        rw [g5 (h FieldsServer.Banner (by simp [PartialServer.setsField, hp])), hp]; rfl⟩⟩
  · obtain ⟨f1, f2, f3, f4, g1⟩ := Role.apply_fields_role ro p r
    exact ⟨⟨fun hp => by rw [f1, hp]; rfl, fun v hp => by rw [f1, hp]; rfl⟩,
      ⟨fun hp => by rw [f2, hp]; rfl, fun v hp => by rw [f2, hp]; rfl⟩,
      ⟨fun hp => by rw [f3, hp]; rfl, fun v hp => by rw [f3, hp]; rfl⟩,
      ⟨fun hp => by rw [f4, hp]; rfl, fun v hp => by rw [f4, hp]; rfl⟩,
      ⟨fun hp hn => by rw [g1 hn, hp]; rfl,
       fun v hp => by
        rw [g1 (h FieldsRole.Colour (by simp [PartialRole.setsField, hp])), hp]; rfl⟩⟩
  · have he := Message.apply_eq_applyOptions m p r
    exact ⟨⟨fun hp => by rw [he]; simp [Message.applyOptions, hp],
            fun v hp => by rw [he]; simp [Message.applyOptions, hp]⟩,
      ⟨fun hp => by rw [he]; simp [Message.applyOptions, hp, Option.or],
       fun v hp => by rw [he]; simp [Message.applyOptions, hp, Option.or]⟩,
      ⟨fun hp => by rw [he]; simp [Message.applyOptions, hp],
       fun v hp => by rw [he]; simp [Message.applyOptions, hp]⟩,
      ⟨fun hp => by rw [he]; simp [Message.applyOptions, hp],
       fun v hp => by rw [he]; simp [Message.applyOptions, hp]⟩,
      ⟨fun hp => by rw [he]; simp [Message.applyOptions, hp, Option.or],
       fun v hp => by rw [he]; simp [Message.applyOptions, hp, Option.or]⟩,
      ⟨fun hp => by rw [he]; simp [Message.applyOptions, hp, Option.or],
       fun v hp => by rw [he]; simp [Message.applyOptions, hp, Option.or]⟩,
      ⟨fun hp => by rw [he]; simp [Message.applyOptions, hp, Option.or],
       fun v hp => by rw [he]; simp [Message.applyOptions, hp, Option.or]⟩,
      ⟨fun hp => by rw [he]; simp [Message.applyOptions, hp, Option.or],
       fun v hp => by rw [he]; simp [Message.applyOptions, hp, Option.or]⟩,
      ⟨fun hp => by rw [he]; simp [Message.applyOptions, hp, Option.or],
       fun v hp => by rw [he]; simp [Message.applyOptions, hp, Option.or]⟩,
      ⟨fun hp => by rw [he]; simp [Message.applyOptions, hp, Option.or],
       fun v hp => by rw [he]; simp [Message.applyOptions, hp, Option.or]⟩,
      ⟨fun hp => by rw [he]; simp [Message.applyOptions, hp, Option.or],
       fun v hp => by rw [he]; simp [Message.applyOptions, hp, Option.or]⟩,
      ⟨fun hp => by rw [he]; simp [Message.applyOptions, hp, Option.or],
       fun v hp => by rw [he]; simp [Message.applyOptions, hp, Option.or]⟩,
      ⟨fun hp => by rw [he]; simp [Message.applyOptions, hp],
       fun v hp => by rw [he]; simp [Message.applyOptions, hp]⟩,
      ⟨fun hp => by rw [he]; simp [Message.applyOptions, hp],
       fun v hp => by rw [he]; simp [Message.applyOptions, hp]⟩,
      ⟨fun hp => by rw [he]; simp [Message.applyOptions, hp, Option.or],
       fun v hp => by rw [he]; simp [Message.applyOptions, hp, Option.or]⟩⟩

/-- C2 witness: the sample partial server (which sets the name and an
empty-but-present channel list) applied with an icon removal: the name takes
the new value, the empty channel list is taken as-is, and the untouched
description keeps the current value. -/
theorem claim_frame_effect_witness :
    (Server.apply sampleServer samplePartialServer [FieldsServer.Icon]).name = "renamed"
  ∧ (Server.apply sampleServer samplePartialServer [FieldsServer.Icon]).channels = []
  ∧ (Server.apply sampleServer samplePartialServer [FieldsServer.Icon]).description =
      sampleServer.description := by
  have h := claim_frame_effect.1 sampleServer samplePartialServer [FieldsServer.Icon]
    (by decide)
  exact ⟨h.2.2.1.2 "renamed" rfl, h.2.2.2.1.2 [] rfl,
    h.2.2.2.2.2.2.2.2.2.2.1.1 rfl (by decide)⟩

/-- C8: Applying the same set-only partial twice with the empty removal set
equals applying it once, for servers, roles and messages. -/
theorem claim_merge_idempotent :
    (∀ (s : Server) (p : PartialServer),
      Server.apply (Server.apply s p []) p [] = Server.apply s p [])
  ∧ (∀ (ro : Role) (p : PartialRole),
      Role.apply (Role.apply ro p []) p [] = Role.apply ro p [])
  ∧ (∀ (m : Message) (p : PartialMessage),
      Message.apply (Message.apply m p []) p [] = Message.apply m p []) := by
  refine ⟨fun s p => ?_, fun ro p => ?_, fun m p => ?_⟩
  · simp [Server.apply, Server.applyOptions, opt_or_idem, opt_getD_idem]
  · simp [Role.apply, Role.applyOptions, opt_or_idem, opt_getD_idem]
  · simp [Message.apply, Message.applyOptions, opt_or_idem, opt_getD_idem]

/-- C3: The permission composer is the left-to-right fold of
effective = (effective AND NOT deny) OR allow over the layer sequence starting
from the base; the empty sequence yields the base, a single allow layer yields
base OR M for any base within 64 bits, a single deny layer yields
base AND NOT M, and composition is total over every layer sequence. -/
theorem claim_compose_fold :
    (∀ (base : Nat) (layers : List OverrideField),
      compose base layers =
        layers.foldl (fun eff l => (eff &&& not64 l.deny) ||| l.allow) base)
  ∧ (∀ base : Nat, compose base [] = base)
  ∧ (∀ (base M : Nat), base < 2 ^ 64 → compose base [⟨M, 0⟩] = base ||| M)
  ∧ (∀ (base M : Nat), compose base [⟨0, M⟩] = base &&& not64 M) := by
  refine ⟨fun base layers => rfl, fun base => rfl, fun base M hb => ?_, fun base M => ?_⟩
  · show (base &&& not64 0) ||| M = base ||| M
    have h0 : not64 0 = 2 ^ 64 - 1 := by simp [not64]
    rw [h0, Nat.and_pow_two_sub_one_of_lt_two_pow hb]
  · show (base &&& not64 M) ||| 0 = base &&& not64 M
    exact Nat.or_zero _

/-- C3 witness: composing the base 5 with a single allow layer of mask 3. -/
theorem claim_compose_fold_witness : compose 5 [⟨3, 0⟩] = 5 ||| 3 :=
  claim_compose_fold.2.2.1 5 3 (by norm_num)

theorem not64_testBit (x i : Nat) (hi : i < 64) : (not64 x).testBit i = !x.testBit i := by
  rw [not64, Nat.testBit_xor, Nat.testBit_two_pow_sub_one]
  simp [hi]

/-- C4: Role layers are ordered so that a smaller rank is applied later
(higher precedence), the channel-specific override layer is applied last of
all, and hence on every bit the channel layer's allow and deny decisions win
over those of every role layer. -/
theorem claim_channel_override_wins :
    (∀ (base : Nat) (roles : List (Int × OverrideField)) (c : OverrideField) (i : Nat),
      i < 64 →
      (c.allow.testBit i = true →
        (composeWithLayers base roles (some c)).testBit i = true)
      ∧ (c.deny.testBit i = true → c.allow.testBit i = false →
        (composeWithLayers base roles (some c)).testBit i = false))
  ∧ (∀ (base : Nat) (r1 r2 : Int) (L1 L2 : OverrideField), r1 < r2 →
      composeWithLayers base [(r1, L1), (r2, L2)] none =
        composeStep (composeStep base L2) L1) := by
  constructor
  · intro base roles c i hi
    constructor
    · intro ha
      simp [composeWithLayers, composeStep, ha]
    · intro hd ha
      simp [composeWithLayers, composeStep, Nat.testBit_or, Nat.testBit_and,
        not64_testBit _ _ hi, ha, hd]
  · intro base r1 r2 L1 L2 h
    simp [composeWithLayers, sortRoleLayers, List.insertionSort, List.orderedInsert,
      compose, h.le]

/-- C4 witness: a channel override granting bit 0 wins over a role layer that
denies it, and two role layers with ranks 1 < 2 are folded rank-2 first. -/
theorem claim_channel_override_wins_witness :
    (composeWithLayers 0 [(5, ⟨0, 1⟩)] (some ⟨1, 0⟩)).testBit 0 = true
  ∧ composeWithLayers 9 [(1, ⟨2, 0⟩), (2, ⟨4, 0⟩)] none =
      composeStep (composeStep 9 ⟨4, 0⟩) ⟨2, 0⟩ :=
  ⟨(claim_channel_override_wins.1 0 [(5, ⟨0, 1⟩)] ⟨1, 0⟩ 0 (by decide)).1 (by decide),
   claim_channel_override_wins.2 9 1 2 ⟨2, 0⟩ ⟨4, 0⟩ (by decide)⟩

/-- C5 counterexample: with requested limit 10 the documented nearby fetch
takes 5 messages on each side and also fetches the nearby message itself,
totalling 11 — not exactly the requested 10 the claim asserts. -/
theorem claim_nearby_counterexample :
    nearbyPlannedTotal 10 ≠ 10 ∧ nearbyPlannedTotal 10 = 11 := by decide

/-- C5 (amended): a query carrying nearby is planned as a relative window, its
before / after / sort being dropped without error; each side receives half of
the limit rounded down (symmetric, so odd limits do not give the after side a
smaller share) and the nearby message itself is fetched additionally, so an
even limit fetches limit + 1 messages in total, not limit. -/
theorem claim_nearby_plan_amended :
    (∀ (n : String) (b a : Option String) (srt : Option MessageSort) (limit : Nat),
      planWindow limit (parseTimePeriod ⟨some n, b, a, srt⟩) =
        FetchWindow.Nearby n (limit / 2) (limit / 2) true)
  ∧ (∀ limit : Nat, nearbyPlannedTotal limit = 2 * (limit / 2) + 1)
  ∧ (∀ limit : Nat, limit % 2 = 0 → nearbyPlannedTotal limit = limit + 1) := by
  refine ⟨fun n b a srt limit => rfl, fun limit => ?_, fun limit h => ?_⟩
  · simp only [nearbyPlannedTotal, nearbySideLimit]
    omega
  · simp only [nearbyPlannedTotal, nearbySideLimit]
    omega

/-- C5 witness: the amended statement applied to the even limit 10: the fetch
totals 11, and a raw query supplying nearby together with before, after and
sort plans a relative window with 5 messages per side. -/
theorem claim_nearby_plan_amended_witness :
    nearbyPlannedTotal 10 = 10 + 1
  ∧ planWindow 10 (parseTimePeriod ⟨some "X", some "B", some "A", some MessageSort.Latest⟩) =
      FetchWindow.Nearby "X" 5 5 true :=
  ⟨claim_nearby_plan_amended.2.2 10 (by decide),
   claim_nearby_plan_amended.1 "X" (some "B") (some "A") (some MessageSort.Latest) 10⟩

/-- C6: When every field of a send payload passes its own bound but the
message content plus the text content of the embeds together exceed the
2000-unit cap, validation fails with exactly one error for the combined total
(not one per offending field), and message creation is not attempted. -/
theorem claim_combined_cap_single_error (d : DataMessageSend)
    (hn : optLengthBetween 1 64 d.nonce = true)
    (hc : optLengthBetween 0 2000 d.content = true)
    (he : (d.embeds.getD []).all SendableEmbed.validate = true)
    (hm : (d.masquerade.map Masquerade.validate).getD true = true)
    (hi : (d.interactions.map Interactions.validate).getD true = true)
    (hover : 2000 < totalTextLength d) :
    validateDataMessageSend d = [⟨"content", "combined length above 2000"⟩]
  ∧ (validateDataMessageSend d).length = 1
  ∧ ∀ id channel author, sendMessage id channel author d =
      Except.error [⟨"content", "combined length above 2000"⟩] := by
  have hv : validateDataMessageSend d = [⟨"content", "combined length above 2000"⟩] := by
    simp [validateDataMessageSend, hn, hc, he, hm, hi, contentCapErrors, hover]
  exact ⟨hv, by rw [hv]; rfl, fun id channel author => by simp [sendMessage, hv]⟩

/-- C6 witness: a payload whose content (1200 units) and embed description
(1200 units) each pass their own bound while their sum exceeds 2000 produces
exactly the single combined-cap error. -/
theorem claim_combined_cap_single_error_witness :
    validateDataMessageSend sampleOverCapSend =
      [⟨"content", "combined length above 2000"⟩]
  ∧ sendMessage "01MSG" "01CHA" "01USR" sampleOverCapSend =
      Except.error [⟨"content", "combined length above 2000"⟩] := by
  have h := claim_combined_cap_single_error sampleOverCapSend
    (by decide) (by decide) (by decide) (by decide) (by decide) (by decide)
  exact ⟨h.1, h.2.2 "01MSG" "01CHA" "01USR"⟩

/-- C7: restrict_reactions may be true only when the reaction allow-list has
at least one entry: validation accepts an Interactions value exactly when this
invariant holds, a restricting value with an empty or absent list fails
validation, and merging a partial whose interactions (when present) pass
validation into a message satisfying the invariant preserves the invariant. -/
theorem claim_restrict_reactions_invariant :
    (∀ i : Interactions, Interactions.validate i = true ↔ Interactions.invariant i)
  ∧ (∀ i : Interactions, i.restrict_reactions = true →
      (i.reactions = none ∨ i.reactions = some []) → Interactions.validate i = false)
  ∧ (∀ (m : Message) (p : PartialMessage) (r : List FieldsMessage),
      Interactions.invariant m.interactions →
      (∀ i, p.interactions = some i → Interactions.validate i = true) →
      Interactions.invariant (Message.apply m p r).interactions) := by
  refine ⟨Interactions.validate_iff, fun i hr hempty => ?_, fun m p r hm hp => ?_⟩
  · rcases hempty with h | h <;> simp [Interactions.validate, hr, h]
  · rw [Message.apply_eq_applyOptions]
    show Interactions.invariant (p.interactions.getD m.interactions)
    cases hpi : p.interactions with
    | none => exact hm
    | some i => exact (Interactions.validate_iff i).mp (hp i hpi)

/-- C7 witness: a restricting Interactions with a present-but-empty list fails
validation, and merging the sample partial (whose interactions restrict to a
one-entry list) into the sample message keeps the invariant. -/
theorem claim_restrict_reactions_invariant_witness :
    Interactions.validate ⟨some [], true⟩ = false
  ∧ Interactions.invariant
      (Message.apply sampleMessage samplePartialMessage []).interactions :=
  ⟨claim_restrict_reactions_invariant.2.1 ⟨some [], true⟩ rfl (Or.inr rfl),
   claim_restrict_reactions_invariant.2.2 sampleMessage samplePartialMessage []
     (by intro h; exact absurd h (by decide))
     (fun i hi => by
       have h2 : i = ⟨some ["star"], true⟩ := Option.some_inj.mp (hi.symm.trans rfl)
       rw [h2]
       decide)⟩

/-- C9 counterexample: an embed whose title has 33 units passes validation
even though the claim requires every title field to be bounded by 1..32 (the
embed title bound in the source is 1..100). -/
theorem claim_length_bounds_counterexample :
    SendableEmbed.validate
      ⟨none, none, some "abcdefghijklmnopqrstuvwxyz0123456", none, none, none⟩ = true
  ∧ ("abcdefghijklmnopqrstuvwxyz0123456" : String).length = 33
  ∧ ¬((33 : Nat) ≤ 32) := by decide

/-- C9 (amended): the bounds actually enforced are: category id and title
1..32; masquerade name 1..32, avatar 1..256, colour 1..128; embed icon_url
1..128 (not 1..256), url 1..256, title 1..100 (not 1..32), description
1..2000, colour 1..128; the embed media field is not validated at all; message
content is bounded by 0..2000; and validation of each value passes exactly
when every present field lies within its stated bound. -/
theorem claim_length_bounds_actual :
    (∀ e : SendableEmbed, SendableEmbed.validate e = true ↔
      (inOptBounds 1 128 e.icon_url ∧ inOptBounds 1 256 e.url ∧ inOptBounds 1 100 e.title
        ∧ inOptBounds 1 2000 e.description ∧ inOptBounds 1 128 e.colour))
  ∧ (∀ (e : SendableEmbed) (v : Option String),
      SendableEmbed.validate { e with media := v } = SendableEmbed.validate e)
  ∧ (∀ m : Masquerade, Masquerade.validate m = true ↔
      (inOptBounds 1 32 m.name ∧ inOptBounds 1 256 m.avatar ∧ inOptBounds 1 128 m.colour))
  ∧ (∀ c : Category, Category.validate c = true ↔
      ((1 ≤ c.id.length ∧ c.id.length ≤ 32) ∧ (1 ≤ c.title.length ∧ c.title.length ≤ 32)))
  ∧ (∀ o : Option String, optLengthBetween 0 2000 o = true ↔ inOptBounds 0 2000 o) := by
  refine ⟨fun e => ?_, fun e v => rfl, fun m => ?_, fun c => ?_,
    fun o => optLengthBetween_iff 0 2000 o⟩
  · simp [SendableEmbed.validate, Bool.and_eq_true, optLengthBetween_iff, and_assoc]
  · simp [Masquerade.validate, Bool.and_eq_true, optLengthBetween_iff, and_assoc]
  · simp [Category.validate, Bool.and_eq_true, lengthBetween_iff, and_assoc]

/-- C10: A present nonce passes its validation exactly when its length is
between 1 and 64 units, and a present out-of-bounds nonce makes validation of
the whole payload fail. -/
theorem claim_nonce_bounds (d : DataMessageSend) (s : String) (h : d.nonce = some s) :
    (optLengthBetween 1 64 d.nonce = true ↔ (1 ≤ s.length ∧ s.length ≤ 64))
  ∧ (¬(1 ≤ s.length ∧ s.length ≤ 64) → validateDataMessageSend d ≠ []) := by
  constructor
  · rw [h]
    simp [optLengthBetween, lengthBetween]
  · intro hb
    have hf : optLengthBetween 1 64 d.nonce = false := by
      rw [h]
      cases htrue : optLengthBetween 1 64 (some s) with
      | false => rfl
      | true =>
        exact absurd (by simpa [optLengthBetween, lengthBetween] using htrue) hb
    simp [validateDataMessageSend, hf]

/-- C10 witness: a payload carrying an empty (zero-length) nonce fails
validation. -/
theorem claim_nonce_bounds_witness :
    validateDataMessageSend sampleEmptyNonceSend ≠ [] :=
  (claim_nonce_bounds sampleEmptyNonceSend "" rfl).2 (by decide)
